import Mathlib

/-!
# Verification of butter-visualizer's WebRTC audio fan-out transport

Shallow embedding of the peer fan-out transport of the butter-visualizer
repository: the `WebRTCController` (renderer service), the
`MicrophoneManager` (renderer service), the popup `WebRTCReceiver` and the
browser `SocketReceiver`.

Modelling conventions:
* JavaScript strings are `List Char` (`JsString`); `includes` is list
  membership, falsiness of a string is "empty or null/undefined".
* The browser objects (`RTCPeerConnection`, data channels, timers) are
  explicit records; object identity is an `objId : Nat` and the set of all
  created peer connections lives in a `heap` keyed by that id, so that the
  `Map` registry (`connections : windowId → objId`) and closure captures
  can alias the same object faithfully.
* Event-driven code becomes explicit state-passing step functions: a
  callback such as `audioChannel.onopen` is a function on the whole
  controller state, and `setInterval` / `setTimeout` registrations become
  entries in `intervals` / `retryQueue` that separate "fire" steps consume.
* `async` functions that may reject are `Except JsError _`;
  a `try { … } catch { console.error }` block is a `match` that turns the
  error branch into a logged outcome instead of propagating it.
* Numeric JavaScript arithmetic on send-cadence values is modelled over `ℚ`.
-/

namespace ButterVisualizer

/-- JavaScript strings, modelled as lists of characters. -/
abbrev JsString := List Char

/-- JavaScript falsiness of a possibly-missing string: `null`/`undefined`
or the empty string are falsy. -/
def jsFalsyStr : Option JsString → Bool
  | none => true
  | some s => s.isEmpty

/-- A session / window identifier as used by `webrtcController.js`:
popup windows use numeric ids, remote browser clients use UUID strings. -/
inductive WindowId
  | num (n : Int)
  | str (s : JsString)
deriving DecidableEq, Repr

/-- The two signaling paths offers and candidates can be dispatched to:
the Socket.IO relay for browser clients (`sendOfferToBrowserClient` /
`sendIceToBrowserClient`) or the in-process IPC path for popup windows
(`sendOffer` / `sendIceCandidate`). -/
inductive Adapter
  | relay
  | ipcLocal
deriving DecidableEq, Repr

/-- `typeof windowId === 'string' && windowId.includes('-')`
(webrtcController.js, lines 128 and 153). -/
def isBrowserClient : WindowId → Bool
  | .num _ => false
  | .str s => s.contains '-'

/-- `RTCDataChannel.readyState` (`open` is a Lean keyword, hence `opened`). -/
inductive RTCDataChannelState
  | connecting
  | opened
  | closing
  | closed
deriving DecidableEq, Repr

/-- `RTCPeerConnection.connectionState`. -/
inductive RTCPeerConnectionState
  | new
  | connecting
  | connected
  | disconnected
  | failed
  | closed
deriving DecidableEq, Repr

/-- The slice of `RTCPeerConnection.signalingState` this code exercises. -/
inductive SignalingState
  | stable
  | haveLocalOffer
  | closed
deriving DecidableEq, Repr

/-- A session-initiation offer (content opaque to the controller). -/
structure Offer where
  sdp : JsString
deriving DecidableEq, Repr

/-- A remote answer (content opaque to the controller). -/
structure Answer where
  sdp : JsString
deriving DecidableEq, Repr

/-- The candidate payload shuttled over signaling
(`{candidate, sdpMid, sdpMLineIndex}`). -/
structure CandidateData where
  candidate : Option JsString
  sdpMid : Option JsString
  sdpMLineIndex : Option Int
deriving DecidableEq, Repr

/-- `!candidate || (!candidate.candidate && !candidate.sdpMid)` — the
end-of-candidates / empty-candidate test shared by all three handlers. -/
def isEmptyCandidate : Option CandidateData → Bool
  | none => true
  | some c => jsFalsyStr c.candidate && jsFalsyStr c.sdpMid

/-- Errors JavaScript code can throw/reject with.  `duplicateSession` and
`negotiationError` are the spec's error vocabulary; they appear here so the
spec's claims about them are statable against the code model. -/
inductive JsError
  | duplicateSession
  | negotiationError
  | invalidState
  | typeError
deriving DecidableEq, Repr

/-! ## MicrophoneManager (src/renderer/services/microphoneManager.js) -/

/-- An `AnalyserNode`: `fftSize`, `smoothingTimeConstant`, and the current
time-domain buffer that `getByteTimeDomainData` snapshots. -/
structure Analyser where
  fftSize : Nat
  smoothingTimeConstant : ℚ
  timeData : List Nat
deriving DecidableEq, Repr

/-- An `AudioContext`; only its `sampleRate` is consulted. -/
structure AudioContext where
  sampleRate : ℚ
deriving DecidableEq, Repr

/-- A `GainNode`; only its `gain.value` is consulted. -/
structure GainNode where
  gain : ℚ
deriving DecidableEq, Repr

/-- A `MediaStream` handle (opaque). -/
structure MediaStream where
  streamId : Nat
deriving DecidableEq, Repr

/-- Field state of `MicrophoneManager`. -/
structure MicrophoneManager where
  stream : Option MediaStream
  audioContext : Option AudioContext
  analyser : Option Analyser
  isEnabled : Bool
  selectedDeviceId : JsString
  gainNode : Option GainNode
deriving DecidableEq, Repr

/-- The `MicrophoneManager` constructor. -/
def MicrophoneManager.init : MicrophoneManager :=
  { stream := none
    audioContext := none
    analyser := none
    isEnabled := false
    selectedDeviceId := "default".toList
    gainNode := none }

/-- The success path of `MicrophoneManager.start(deviceId)` (the granted
`getUserMedia` stream is a parameter): records the device id and stream,
creates the `AudioContext` at `AUDIO_CONFIG.sampleRate = 48000` if absent,
installs a fresh analyser with `fftSize = 2048` and
`smoothingTimeConstant = 0.3`, a gain node at `5.0`, and sets `isEnabled`. -/
def MicrophoneManager.start (m : MicrophoneManager) (deviceId : JsString)
    (stream : MediaStream) : MicrophoneManager :=
  let ctx := m.audioContext.getD { sampleRate := 48000 }
  { m with
    selectedDeviceId := deviceId
    stream := some stream
    audioContext := some ctx
    analyser := some { fftSize := 2048, smoothingTimeConstant := 3 / 10,
                       timeData := List.replicate 2048 128 }
    gainNode := some { gain := 5 }
    isEnabled := true }

/-- `MicrophoneManager.stop()` (lines 112–118): stops the stream's tracks
(an effect on the external track objects), nulls `this.stream`, and clears
`this.isEnabled`.  No other field is assigned. -/
def MicrophoneManager.stop (m : MicrophoneManager) : MicrophoneManager :=
  { m with stream := none, isEnabled := false }

/-! ## WebRTCController (renderer service, src/unnamed/part_002) -/

/-- One `RTCPeerConnection` object together with the expando properties the
controller hangs on it (`pc.controlChannel`, `pc.audioChannelInterval`) and
the observable state of its two data channels. -/
structure PeerConnection where
  objId : Nat
  connectionState : RTCPeerConnectionState
  signalingState : SignalingState
  localDescription : Option Offer
  remoteDescription : Option Answer
  appliedCandidates : List CandidateData
  audioChannelState : RTCDataChannelState
  controlChannelState : RTCDataChannelState
  /-- Whether `pc.controlChannel = controlChannel` has run (control onopen). -/
  controlChannel : Bool
  /-- `pc.audioChannelInterval`, set by the audio channel's onopen. -/
  audioChannelInterval : Option Nat
deriving DecidableEq, Repr

/-- `new RTCPeerConnection(WEBRTC_CONFIG)` plus the two `createDataChannel`
calls: both channels start out connecting, no expandos set. -/
def newRTCPeerConnection (objId : Nat) : PeerConnection :=
  { objId := objId
    connectionState := .new
    signalingState := .stable
    localDescription := none
    remoteDescription := none
    appliedCandidates := []
    audioChannelState := .connecting
    controlChannelState := .connecting
    controlChannel := false
    audioChannelInterval := none }

/-- `pc.close()`: connection and both channels move to `closed`. -/
def PeerConnection.close (pc : PeerConnection) : PeerConnection :=
  { pc with
    connectionState := .closed
    signalingState := .closed
    audioChannelState := .closed
    controlChannelState := .closed }

/-- The whole controller plus its browser environment: the
`connections` Map (windowId → peer-connection object), the heap of all
created peer-connection objects, the live `setInterval` timers
`(intervalId, pc objId, intervalMs)`, the pending `setTimeout` retries of
`handleIceCandidate`, the offers/candidates handed to each signaling
adapter, and the invocations of the connection-closed notification hook
that `App` passes to the constructor. -/
structure ControllerState where
  microphoneManager : MicrophoneManager
  heap : List PeerConnection
  connections : List (WindowId × Nat)
  intervals : List (Nat × Nat × ℚ)
  retryQueue : List (WindowId × Option CandidateData)
  sentOffers : List (Adapter × WindowId × Nat)
  sentCandidates : List (Adapter × WindowId × CandidateData)
  sessionClosedNotifications : List WindowId
  fresh : Nat
deriving DecidableEq, Repr

/-- `Map.prototype.get`. -/
def mapGet (m : List (WindowId × Nat)) (k : WindowId) : Option Nat :=
  (m.find? (fun p => p.1 == k)).map (fun p => p.2)

/-- `Map.prototype.set`: update in place if present, else append. -/
def mapSet (m : List (WindowId × Nat)) (k : WindowId) (v : Nat) :
    List (WindowId × Nat) :=
  if m.any (fun p => p.1 == k) then
    m.map (fun p => if p.1 == k then (k, v) else p)
  else m ++ [(k, v)]

/-- `Map.prototype.delete`. -/
def mapDelete (m : List (WindowId × Nat)) (k : WindowId) :
    List (WindowId × Nat) :=
  m.filter (fun p => p.1 != k)

/-- Dereference a peer-connection object id in the heap. -/
def heapGet (h : List PeerConnection) (objId : Nat) : Option PeerConnection :=
  h.find? (fun pc => pc.objId == objId)

/-- Overwrite the heap entry with the same object id (an object mutation). -/
def heapSet (h : List PeerConnection) (pc : PeerConnection) :
    List PeerConnection :=
  h.map (fun q => if q.objId == pc.objId then pc else q)

/-- `this.connections.get(windowId)` dereferenced to the object. -/
def lookupPC (st : ControllerState) (w : WindowId) : Option PeerConnection :=
  (mapGet st.connections w).bind (fun objId => heapGet st.heap objId)

/-- Mutate one peer-connection object in place. -/
def heapSetSt (st : ControllerState) (pc : PeerConnection) : ControllerState :=
  { st with heap := heapSet st.heap pc }

/-- The empty controller right after `new WebRTCController(micManager, …)`:
the constructor stores only `microphoneManager` and an empty Map; the
second argument (App's `handleConnectionClosed` hook) is not a declared
parameter and is dropped. -/
def initialControllerState : ControllerState :=
  { microphoneManager := MicrophoneManager.init
    heap := []
    connections := []
    intervals := []
    retryQueue := []
    sentOffers := []
    sentCandidates := []
    sessionClosedNotifications := []
    fresh := 0 }

/-- `startAudioSending` (lines 36–50): `1000/60` when either the analyser
or the audio context is missing, else `(fftSize / sampleRate) * 1000`. -/
def startAudioSending (m : MicrophoneManager) : ℚ :=
  match m.analyser, m.audioContext with
  | some analyser, some audioContext =>
      ((analyser.fftSize : ℚ) / audioContext.sampleRate) * 1000
  | _, _ => 1000 / 60

/-- What one scheduler tick observably did. -/
inductive TickEffect
  | skipped
  | sentLive (frame : List Nat)
  | sentSilence (frame : List Nat)
  | sendFailedLogged
deriving DecidableEq, Repr

/-- `sendAnalysisData` (lines 53–77), one tick of the recurring timer:
nothing happens unless the audio channel is open; with an analyser the
`getByteTimeDomainData` snapshot is sent, otherwise a 2048-byte constant-128
silence frame; a throwing `send` is caught (`console.warn`) and becomes a
logged outcome rather than a propagated exception (`sendOk` says whether
`audioChannel.send` succeeds on this tick). -/
def sendAnalysisData (audioChannelState : RTCDataChannelState)
    (analyser : Option Analyser) (sendOk : Bool) : TickEffect :=
  if audioChannelState = RTCDataChannelState.opened then
    match analyser with
    | some a =>
        let timeData := a.timeData
        if sendOk then .sentLive timeData else .sendFailedLogged
    | none =>
        let silenceData := List.replicate 2048 128
        if sendOk then .sentSilence silenceData else .sendFailedLogged
  else .skipped

/-- `createConnection(windowId)` (lines 15–166): builds the peer connection
and its two channels, registers callbacks, creates the offer and applies it
as local description, stores the connection in the Map — with no check
whether `windowId` is already present — and dispatches the offer to the
relay adapter when `isBrowserClient`, else to the IPC adapter.  The only
`throw` re-raises an error of a sub-step; every modelled sub-step succeeds,
so the result is always `ok`. -/
def createConnection (st : ControllerState) (windowId : WindowId) :
    Except JsError ControllerState :=
  let pcId := st.fresh
  let offer : Offer := { sdp := [] }
  let pc := { newRTCPeerConnection pcId with
              signalingState := .haveLocalOffer
              localDescription := some offer }
  let adapter := if isBrowserClient windowId then Adapter.relay else Adapter.ipcLocal
  Except.ok { st with
    heap := st.heap ++ [pc]
    connections := mapSet st.connections windowId pcId
    sentOffers := st.sentOffers ++ [(adapter, windowId, pcId)]
    fresh := st.fresh + 1 }

/-- `createConnection` as a plain state step (its error branch is dead). -/
def afterCreate (st : ControllerState) (windowId : WindowId) : ControllerState :=
  match createConnection st windowId with
  | Except.ok st2 => st2
  | Except.error _ => st

/-- The `audioChannel.onopen` callback for the channel owned by `pcId`
(lines 32–85): computes `intervalMs := startAudioSending()` once, starts
`setInterval(sendAnalysisData, intervalMs)`, and stores the interval id on
the pc (`pc.audioChannelInterval = intervalId`). -/
def audioChannelOnOpen (st : ControllerState) (pcId : Nat) : ControllerState :=
  match heapGet st.heap pcId with
  | none => st
  | some pc =>
      let intervalMs := startAudioSending st.microphoneManager
      let intervalId := st.fresh
      { st with
        heap := heapSet st.heap { pc with
          audioChannelState := .opened
          audioChannelInterval := some intervalId }
        intervals := st.intervals ++ [(intervalId, pcId, intervalMs)]
        fresh := st.fresh + 1 }

/-- The `controlChannel.onopen` callback (lines 95–98): records the channel
on the pc for `sendControlMessage`. -/
def controlChannelOnOpen (st : ControllerState) (pcId : Nat) : ControllerState :=
  match heapGet st.heap pcId with
  | none => st
  | some pc =>
      heapSetSt st { pc with controlChannel := true, controlChannelState := .opened }

/-- One firing of a live interval timer: runs `sendAnalysisData` against the
captured channel and the current `this.microphoneManager.analyser`.  The
controller state is never mutated by a tick. -/
def intervalTick (st : ControllerState) (intervalId : Nat) (sendOk : Bool) :
    ControllerState × TickEffect :=
  match st.intervals.find? (fun t => t.1 == intervalId) with
  | none => (st, .skipped)
  | some (_, pcId, _) =>
      match heapGet st.heap pcId with
      | none => (st, .skipped)
      | some pc =>
          (st, sendAnalysisData pc.audioChannelState st.microphoneManager.analyser sendOk)

/-- `closeConnection(windowId)` (lines 208–214): if present, `pc.close()`
and delete the Map entry; nothing else — in particular no
`clearInterval(pc.audioChannelInterval)`. -/
def closeConnection (st : ControllerState) (windowId : WindowId) : ControllerState :=
  match mapGet st.connections windowId with
  | none => st
  | some pcId =>
      let heap2 :=
        match heapGet st.heap pcId with
        | some pc => heapSet st.heap pc.close
        | none => st.heap
      { st with heap := heap2, connections := mapDelete st.connections windowId }

/-- A `connectionState` transition on the session registered at `windowId`,
followed by the `pc.onconnectionstatechange` handler (lines 139–143): on
`failed`/`closed` the handler deletes the Map entry — and does nothing
else; no notification hook is invoked anywhere in the class. -/
def connectionStateChange (st : ControllerState) (windowId : WindowId)
    (newState : RTCPeerConnectionState) : ControllerState :=
  match mapGet st.connections windowId with
  | none => st
  | some pcId =>
      let heap2 :=
        match heapGet st.heap pcId with
        | some pc => heapSet st.heap { pc with connectionState := newState }
        | none => st.heap
      if newState = .failed ∨ newState = .closed then
        { st with heap := heap2, connections := mapDelete st.connections windowId }
      else
        { st with heap := heap2 }

/-- The `pc.onicecandidate` callback (lines 119–136): a null
`event.candidate` does nothing; otherwise the candidate payload goes to the
relay adapter when `isBrowserClient windowId`, else to the IPC adapter. -/
def onIceCandidateLocal (st : ControllerState) (windowId : WindowId)
    (eventCandidate : Option CandidateData) : ControllerState :=
  match eventCandidate with
  | none => st
  | some c =>
      let candidateData : CandidateData :=
        { candidate := c.candidate, sdpMid := c.sdpMid, sdpMLineIndex := c.sdpMLineIndex }
      if isBrowserClient windowId then
        { st with sentCandidates := st.sentCandidates ++ [(Adapter.relay, windowId, candidateData)] }
      else
        { st with sentCandidates := st.sentCandidates ++ [(Adapter.ipcLocal, windowId, candidateData)] }

/-- `pc.setRemoteDescription(answer)`: succeeds only in `have-local-offer`
signaling state, rejecting with an invalid-state error otherwise. -/
def setRemoteDescription (pc : PeerConnection) (answer : Answer) :
    Except JsError PeerConnection :=
  if pc.signalingState = .haveLocalOffer then
    Except.ok { pc with remoteDescription := some answer, signalingState := .stable }
  else Except.error .invalidState

/-- Distinguishable outcomes of `handleAnswer`. -/
inductive AnswerOutcome
  | absentNoop
  | applied
  | errorLogged
deriving DecidableEq, Repr

/-- `handleAnswer(windowId, answer)` (lines 171–180): silently does nothing
when the session is absent; otherwise applies the answer, catching a
rejection with `console.error` — it never rethrows, so the `Except` is
always `ok`. -/
def handleAnswer (st : ControllerState) (windowId : WindowId) (answer : Answer) :
    Except JsError (ControllerState × AnswerOutcome) :=
  match lookupPC st windowId with
  | none => Except.ok (st, .absentNoop)
  | some pc =>
      match setRemoteDescription pc answer with
      | Except.ok pc2 => Except.ok (heapSetSt st pc2, .applied)
      | Except.error _ => Except.ok (st, .errorLogged)

/-- `handleAnswer` as a plain state step. -/
def applyAnswerEvent (st : ControllerState) (windowId : WindowId) (answer : Answer) :
    ControllerState :=
  match handleAnswer st windowId answer with
  | Except.ok (st2, _) => st2
  | Except.error _ => st

/-- Distinguishable outcomes of the controller's `handleIceCandidate`. -/
inductive IceOutcome
  | absentNoop
  | emptyNoop
  | deferredRetry
  | applied
deriving DecidableEq, Repr

/-- `handleIceCandidate(windowId, candidate)` (lines 185–203): no-op when
the session is absent or the candidate is empty/null; when the remote
description is not yet set, `setTimeout(() => handleIceCandidate(...), 100)`
re-schedules the very same call (modelled by appending to `retryQueue`);
otherwise the candidate is added to the peer connection. -/
def handleIceCandidate (st : ControllerState) (windowId : WindowId)
    (candidate : Option CandidateData) : ControllerState × IceOutcome :=
  match lookupPC st windowId with
  | none => (st, .absentNoop)
  | some pc =>
      if isEmptyCandidate candidate then (st, .emptyNoop)
      else
        match candidate with
        | none => (st, .emptyNoop)
        | some c =>
            if pc.remoteDescription = none then
              ({ st with retryQueue := st.retryQueue ++ [(windowId, some c)] }, .deferredRetry)
            else
              (heapSetSt st { pc with appliedCandidates := pc.appliedCandidates ++ [c] },
               .applied)

/-- One pending `setTimeout` retry firing: pops the oldest deferred call and
re-invokes `handleIceCandidate` with the same arguments. -/
def retryTimeoutFire (st : ControllerState) : ControllerState × Option IceOutcome :=
  match st.retryQueue with
  | [] => (st, none)
  | (w, cand) :: rest =>
      let st1 := { st with retryQueue := rest }
      let r := handleIceCandidate st1 w cand
      (r.1, some r.2)

/-- `updateMicrophoneStream()` (lines 227–232) is a no-op on controller
state: only a log line. -/
def updateMicrophoneStream (st : ControllerState) : ControllerState := st

/-- `microphoneManager.start(...)` succeeding, seen from the controller's
shared state. -/
def micStartEvent (st : ControllerState) (deviceId : JsString)
    (stream : MediaStream) : ControllerState :=
  { st with microphoneManager := st.microphoneManager.start deviceId stream }

/-- `microphoneManager.stop()`, seen from the controller's shared state. -/
def micStopEvent (st : ControllerState) : ControllerState :=
  { st with microphoneManager := st.microphoneManager.stop }

/-! ## JSON serialization and sendControlMessage -/

/-- A flat JSON value, the shape of control-command payload fields. -/
inductive JVal
  | jstr (s : JsString)
  | jnum (n : Int)
  | jbool (b : Bool)
  | jnull
deriving DecidableEq, Repr

/-- A control-command object, e.g. `{type: "preset-change", preset: "X"}`. -/
abbrev JObj := List (JsString × JVal)

/-- JSON string escaping for the two characters that must be escaped. -/
def escapeChar (c : Char) : List Char :=
  if c = Char.ofNat 34 then [Char.ofNat 92, Char.ofNat 34]
  else if c = Char.ofNat 92 then [Char.ofNat 92, Char.ofNat 92]
  else [c]

/-- A JSON string literal: quotes around the escaped characters. -/
def quoteJsString (s : JsString) : JsString :=
  Char.ofNat 34 :: (s.flatMap escapeChar ++ [Char.ofNat 34])

/-- Encoding of a flat JSON value. -/
def JVal.encode : JVal → JsString
  | .jstr s => quoteJsString s
  | .jnum n => (toString n).toList
  | .jbool true => "true".toList
  | .jbool false => "false".toList
  | .jnull => "null".toList

/-- Comma-join. -/
def joinComma : List JsString → JsString
  | [] => []
  | [x] => x
  | x :: xs => x ++ [','] ++ joinComma xs

/-- `JSON.stringify` on a flat command object. -/
def stringify (o : JObj) : JsString :=
  Char.ofNat 123 ::
    (joinComma (o.map (fun kv => quoteJsString kv.1 ++ [':'] ++ kv.2.encode))
      ++ [Char.ofNat 125])

/-- `sendControlMessage(windowId, message)` (lines 245–258): `false` (and
nothing transmitted, second component `none`) when the session is absent,
`pc.controlChannel` is unset, or its `readyState` is not `open`; otherwise
transmits `JSON.stringify(message)` and returns `true`, with a throwing
`send` caught (`console.error`) and turned into `false` (`sendOk` says
whether `controlChannel.send` succeeds). -/
def sendControlMessage (st : ControllerState) (windowId : WindowId)
    (message : JObj) (sendOk : Bool) : Bool × Option JsString :=
  match lookupPC st windowId with
  | none => (false, none)
  | some pc =>
      if pc.controlChannel = false then (false, none)
      else if pc.controlChannelState ≠ .opened then (false, none)
      else if sendOk then (true, some (stringify message))
      else (false, none)

/-! ## Popup receiver (src/popup/services/webrtcReceiver.js) and browser
receiver (`SocketReceiver` in src/popup/popup.jsx) -/

/-- The receiving side's `RTCPeerConnection`. -/
structure ReceiverPeerConnection where
  remoteDescription : Option Offer
  localDescription : Option Answer
  appliedCandidates : List CandidateData
deriving DecidableEq, Repr

/-- `WebRTCReceiver` field state: the peer connection and the
`pendingICECandidates` queue for candidates that arrive before the remote
description is set. -/
structure WebRTCReceiver where
  peerConnection : Option ReceiverPeerConnection
  pendingICECandidates : List CandidateData
deriving DecidableEq, Repr

/-- Distinguishable outcomes of `WebRTCReceiver.handleIceCandidate`. -/
inductive ReceiverIceOutcome
  | noPeerConnection
  | emptyNoop
  | queued
  | applied
deriving DecidableEq, Repr

/-- `WebRTCReceiver.handleIceCandidate(candidate)` (lines 179–205): warn
and return without a peer connection; ignore empty/null candidates; queue
into `pendingICECandidates` while the remote description is unset; else add
immediately. -/
def WebRTCReceiver.handleIceCandidate (r : WebRTCReceiver)
    (candidate : Option CandidateData) : WebRTCReceiver × ReceiverIceOutcome :=
  match r.peerConnection with
  | none => (r, .noPeerConnection)
  | some pc =>
      if isEmptyCandidate candidate then (r, .emptyNoop)
      else
        match candidate with
        | none => (r, .emptyNoop)
        | some c =>
            if pc.remoteDescription = none then
              ({ r with pendingICECandidates := r.pendingICECandidates ++ [c] }, .queued)
            else
              ({ r with
                  peerConnection := some { pc with
                    appliedCandidates := pc.appliedCandidates ++ [c] } },
               .applied)

/-- The success path of `WebRTCReceiver.handleOffer(offer)` (the webrtc
sub-calls succeed): sets the remote description, flushes every queued
pending candidate in order, clears the queue, creates the answer, applies
it as local description and sends it back.  With a null peer connection
the thrown error is caught and logged (`none` answer, state unchanged). -/
def WebRTCReceiver.handleOffer (r : WebRTCReceiver) (offer : Offer) :
    WebRTCReceiver × Option Answer :=
  match r.peerConnection with
  | none => (r, none)
  | some pc =>
      let answer : Answer := { sdp := [] }
      let pc2 := { pc with
        remoteDescription := some offer
        appliedCandidates := pc.appliedCandidates ++ r.pendingICECandidates
        localDescription := some answer }
      ({ r with peerConnection := some pc2, pendingICECandidates := [] }, some answer)

/-- The browser `SocketReceiver` (popup.jsx) field state: no pending queue
exists in that class. -/
structure SocketReceiver where
  peerConnection : Option ReceiverPeerConnection
deriving DecidableEq, Repr

/-- Distinguishable outcomes of `SocketReceiver.handleIceCandidate`. -/
inductive SocketIceOutcome
  | noPeerConnection
  | emptyNoop
  | applied
  | addFailedLogged
deriving DecidableEq, Repr

/-- `SocketReceiver.handleIceCandidate(candidate)` (popup.jsx lines
213–230): warn and return without a peer connection; ignore empty/null
candidates; otherwise attempt `addIceCandidate` at once — before the
remote description is set the add rejects and the catch logs it (the
candidate is not retained). -/
def SocketReceiver.handleIceCandidate (r : SocketReceiver)
    (candidate : Option CandidateData) : SocketReceiver × SocketIceOutcome :=
  match r.peerConnection with
  | none => (r, .noPeerConnection)
  | some pc =>
      if isEmptyCandidate candidate then (r, .emptyNoop)
      else
        match candidate with
        | none => (r, .emptyNoop)
        | some c =>
            if pc.remoteDescription = none then (r, .addFailedLogged)
            else
              ({ r with
                  peerConnection := some { pc with
                    appliedCandidates := pc.appliedCandidates ++ [c] } },
               .applied)

/-! ## Concrete executions used as inputs to the theorems below -/

/-- The popup session id used in concrete runs. -/
def windowOne : WindowId := .num 1

/-- A sample answer. -/
def answerA : Answer := { sdp := [] }

/-- A sample offer. -/
def offerA : Offer := { sdp := [] }

/-- A non-empty remote candidate. -/
def candX : CandidateData :=
  { candidate := some ['x'], sdpMid := none, sdpMLineIndex := none }

/-- A sample control command, `{type: "preset-change", preset: "X"}`. -/
def presetCmd : JObj :=
  [("type".toList, JVal.jstr "preset-change".toList),
   ("preset".toList, JVal.jstr "X".toList)]

/-- State after `createConnection(1)` on a fresh controller. -/
def sessionOneOpen : ControllerState := afterCreate initialControllerState windowOne

/-- The peer-connection object `createConnection` builds for session 1. -/
def pcAfterCreate : PeerConnection :=
  { newRTCPeerConnection 0 with
    signalingState := .haveLocalOffer
    localDescription := some { sdp := [] } }

/-- State after session 1's audio channel opened (cadence timer running). -/
def sessionOneAudioOpen : ControllerState := audioChannelOnOpen sessionOneOpen 0

/-- State after `closeConnection(1)` on the running session. -/
def sessionOneClosed : ControllerState := closeConnection sessionOneAudioOpen windowOne

/-- State after the remote answer was applied to session 1. -/
def sessionOneAnswered : ControllerState := applyAnswerEvent sessionOneOpen windowOne answerA

/-- Session 1's peer connection after its answer was applied. -/
def pcAnswered : PeerConnection :=
  { pcAfterCreate with remoteDescription := some answerA, signalingState := .stable }

/-- State after session 1's control channel opened. -/
def sessionOneControlOpen : ControllerState := controlChannelOnOpen sessionOneOpen 0

/-- Session 1's peer connection with the control channel open. -/
def pcCtlOpen : PeerConnection :=
  { pcAfterCreate with controlChannel := true, controlChannelState := .opened }

/-- Session 1's peer connection with the control channel no longer open. -/
def pcCtlClosing : PeerConnection :=
  { pcCtlOpen with controlChannelState := .closing }

/-- Controller in which session 1's control channel has started closing. -/
def sessionCtlClosing : ControllerState := heapSetSt sessionOneControlOpen pcCtlClosing

/-- Running session, then `microphoneManager.start` succeeds and
`updateMicrophoneStream()` is called (the flow in MicrophoneControls). -/
def sessionOneMicStarted : ControllerState :=
  updateMicrophoneStream (micStartEvent sessionOneAudioOpen ['m'] { streamId := 7 })

/-- Session 1 with a remote candidate deferred (arrived before the answer). -/
def deferredState : ControllerState :=
  (handleIceCandidate sessionOneOpen windowOne (some candX)).1

/-- The deferred-candidate state after the answer arrives; the queued
`setTimeout` retry has not fired yet. -/
def deferredAnswered : ControllerState := applyAnswerEvent deferredState windowOne answerA

/-- A receiver-side peer connection with no remote description yet. -/
def recvPC0 : ReceiverPeerConnection :=
  { remoteDescription := none, localDescription := none, appliedCandidates := [] }

/-- A popup `WebRTCReceiver` after `initialize` (before the offer). -/
def recvInit : WebRTCReceiver :=
  { peerConnection := some recvPC0, pendingICECandidates := [] }

/-- The popup receiver with one candidate queued. -/
def recvQueued : WebRTCReceiver :=
  (WebRTCReceiver.handleIceCandidate recvInit (some candX)).1

/-- A browser `SocketReceiver` after `initialize` (before the offer). -/
def sockRecv : SocketReceiver := { peerConnection := some recvPC0 }

/-! ## Helper lemmas -/

/-- `Map.set` followed by `Map.get` of the same key yields the new value
(key present: replaced in place). -/
theorem find?_map_replace (m : List (WindowId × Nat)) (k : WindowId) (v : Nat)
    (h : m.any (fun p => p.1 == k) = true) :
    (m.map fun p => if p.1 == k then (k, v) else p).find? (fun p => p.1 == k)
      = some (k, v) := by
  induction m with
  | nil => simp at h
  | cons q rest ih =>
      simp only [List.map_cons, List.find?_cons]
      by_cases hq : (q.1 == k) = true
      · simp [hq]
      · have hq2 : (q.1 == k) = false := by
          cases hb : (q.1 == k) with
          | true => exact absurd hb hq
          | false => rfl
        simp only [List.any_cons, hq2, Bool.false_or] at h
        simp only [hq2, Bool.false_eq_true, if_false]
        exact ih h

/-- `Map.set` followed by `Map.get` of the same key (key absent: appended). -/
theorem mapGet_append_single (m : List (WindowId × Nat)) (k : WindowId) (v : Nat)
    (h : m.any (fun p => p.1 == k) = false) :
    mapGet (m ++ [(k, v)]) k = some v := by
  induction m with
  | nil => simp [mapGet, List.find?_cons]
  | cons q rest ih =>
      have hq : (q.1 == k) = false := by
        simp only [List.any_cons, Bool.or_eq_false_iff] at h
        exact h.1
      have hrest : rest.any (fun p => p.1 == k) = false := by
        simp only [List.any_cons, Bool.or_eq_false_iff] at h
        exact h.2
      simpa [mapGet, List.find?_cons, hq] using ih hrest

/-- `Map.get` after `Map.set` of the same key. -/
theorem mapGet_mapSet_self (m : List (WindowId × Nat)) (k : WindowId) (v : Nat) :
    mapGet (mapSet m k v) k = some v := by
  unfold mapSet
  by_cases h : m.any (fun p => p.1 == k) = true
  · simp only [h, if_true]
    unfold mapGet
    rw [find?_map_replace m k v h]
    rfl
  · have h2 : m.any (fun p => p.1 == k) = false := by
      cases hb : m.any (fun p => p.1 == k) with
      | true => exact absurd hb h
      | false => rfl
    simp only [h2, Bool.false_eq_true, if_false]
    exact mapGet_append_single m k v h2

/-- `lookupPC` ignores the retry queue. -/
theorem lookupPC_set_retryQueue (st : ControllerState)
    (rq : List (WindowId × Option CandidateData)) (w : WindowId) :
    lookupPC { st with retryQueue := rq } w = lookupPC st w := rfl

/-! ## Claim theorems -/

/-- C2 (code bug evidence): after opening session 1's audio channel and then
running `closeConnection(1)`, the cadence `setInterval` timer registered by
the audio channel's `onopen` is still live — `closeConnection` deleted the
registry entry and closed the peer link but never ran
`clearInterval(pc.audioChannelInterval)`, though that id was stored "for
cleanup".  The remaining conjuncts evaluate the rest of the claim at the
same input: the registry entry is gone, a tick of the surviving timer emits
no frame (the channel's `readyState` is no longer open, so
`sendAnalysisData` does nothing), and a second `closeConnection` in a row
is a no-op rather than an error. -/
theorem closeConnection_leaves_cadence_timer_running :
    sessionOneClosed.intervals = [(1, 0, 1000 / 60)] ∧
    mapGet sessionOneClosed.connections windowOne = none ∧
    (intervalTick sessionOneClosed 1 true).2 = TickEffect.skipped ∧
    closeConnection sessionOneClosed windowOne = sessionOneClosed := by
  refine ⟨rfl, by decide, by decide, rfl⟩

/-- C3 (code bug evidence): when session 1's peer link transitions to
`failed`, the `onconnectionstatechange` handler evicts the session from the
registry — but no session-closed notification hook is ever invoked: the
`WebRTCController` constructor declares only `microphoneManager`, so the
`handleConnectionClosed` callback `App` passes as a second argument is
dropped, and the handler body only deletes the Map entry.  The final
conjunct shows no step of the handler ever appends a notification, for any
state and any transition. -/
theorem link_failure_evicts_without_notification :
    (connectionStateChange sessionOneOpen windowOne .failed).connections = [] ∧
    (connectionStateChange sessionOneOpen windowOne .failed).sessionClosedNotifications = [] ∧
    (∀ (st : ControllerState) (w : WindowId) (s : RTCPeerConnectionState),
      (connectionStateChange st w s).sessionClosedNotifications
        = st.sessionClosedNotifications) := by
  refine ⟨by decide, by decide, ?_⟩
  intro st w s
  unfold connectionStateChange
  cases mapGet st.connections w with
  | none => rfl
  | some pcId =>
      dsimp only
      split
      · rfl
      · rfl

/-- C7: on a tick with the audio channel open and no analyser, a synthetic
silence frame — exactly 2048 bytes, each the mid-scale value 128 — is sent
instead of skipping the tick; a throwing `audioChannel.send` on any tick is
caught and logged (`sendAnalysisData` is total and returns a logged
outcome, never an exception), and a tick never mutates controller state, so
the recurring timer keeps running. -/
theorem tick_sends_silence_and_never_propagates :
    sendAnalysisData .opened none true = TickEffect.sentSilence (List.replicate 2048 128) ∧
    (List.replicate 2048 (128 : Nat)).length = 2048 ∧
    ((List.replicate 2048 (128 : Nat)).all fun b => b == 128) = true ∧
    (∀ analyser : Option Analyser,
      sendAnalysisData .opened analyser false = TickEffect.sendFailedLogged) ∧
    (∀ (st : ControllerState) (intervalId : Nat) (sendOk : Bool),
      (intervalTick st intervalId sendOk).1 = st) := by
  refine ⟨rfl, by rw [List.length_replicate], by rw [List.all_replicate]; rfl, ?_, ?_⟩
  · intro analyser
    cases analyser <;> rfl
  · intro st intervalId sendOk
    unfold intervalTick
    cases st.intervals.find? (fun t => t.1 == intervalId) with
    | none => rfl
    | some t =>
        dsimp only
        cases heapGet st.heap t.2.1 with
        | none => rfl
        | some pc => rfl

/-- C10: `MicrophoneManager.stop()` nulls `stream` and clears `isEnabled`
and changes nothing else — `analyser`, `audioContext`, `gainNode` and
`selectedDeviceId` are untouched; hence after a successful `start` followed
by `stop` the analyser is still present, and a scheduler tick with the
audio channel open still takes the live-capture branch (`sentLive`), not
the synthetic-silence branch. -/
theorem stop_preserves_capture_fields :
    (∀ m : MicrophoneManager,
      m.stop.analyser = m.analyser ∧
      m.stop.audioContext = m.audioContext ∧
      m.stop.gainNode = m.gainNode ∧
      m.stop.selectedDeviceId = m.selectedDeviceId ∧
      m.stop.stream = none ∧
      m.stop.isEnabled = false) ∧
    (∀ (m : MicrophoneManager) (d : JsString) (strm : MediaStream),
      ((m.start d strm).stop).analyser
        = some { fftSize := 2048, smoothingTimeConstant := 3 / 10,
                 timeData := List.replicate 2048 128 }) ∧
    (∀ (m : MicrophoneManager) (d : JsString) (strm : MediaStream),
      sendAnalysisData .opened ((m.start d strm).stop).analyser true
        = TickEffect.sentLive (List.replicate 2048 128)) := by
  refine ⟨?_, ?_, ?_⟩
  · intro m
    exact ⟨rfl, rfl, rfl, rfl, rfl, rfl⟩
  · intro m d strm
    rfl
  · intro m d strm
    rfl

/-- C1 counterexample: with session 1 already present in the registry, a
second `createConnection(1)` without an intervening `closeConnection` does
not fail — `createConnection` never consults the registry before
`connections.set` — and the registry entry is replaced: it mapped to peer
connection 0 before the call and to the freshly created peer connection 1
after it, so the first session's entry is not left untouched. -/
theorem duplicate_create_succeeds_and_overwrites :
    createConnection sessionOneOpen windowOne
      = Except.ok (afterCreate sessionOneOpen windowOne) ∧
    mapGet sessionOneOpen.connections windowOne = some 0 ∧
    mapGet (afterCreate sessionOneOpen windowOne).connections windowOne = some 1 := by
  refine ⟨rfl, by decide, by decide⟩

/-- C1 amended: for every state whose registry already holds `w` (mapped to
a previously created peer connection, i.e. one with id below the fresh
counter), a second `createConnection w` succeeds — no `DuplicateSession`
error exists in the code — and overwrites the registry entry with the new
peer connection. -/
theorem create_overwrites_existing_session (st : ControllerState) (w : WindowId)
    (pcId : Nat) (hpresent : mapGet st.connections w = some pcId)
    (hfresh : pcId < st.fresh) :
    ∃ st2, createConnection st w = Except.ok st2 ∧
      mapGet st2.connections w = some st.fresh ∧
      mapGet st2.connections w ≠ some pcId := by
  refine ⟨_, rfl, ?_, ?_⟩
  · exact mapGet_mapSet_self st.connections w st.fresh
  · rw [show (mapGet (mapSet st.connections w st.fresh) w : Option Nat)
        = some st.fresh from mapGet_mapSet_self st.connections w st.fresh]
    intro hc
    have hfe : st.fresh = pcId := by injection hc
    omega

/-- Witness for `create_overwrites_existing_session`: the state after one
`createConnection(1)` satisfies the hypotheses with `pcId = 0`. -/
theorem create_overwrites_existing_session_witness :
    mapGet sessionOneOpen.connections windowOne = some 0 ∧
    0 < sessionOneOpen.fresh ∧
    ∃ st2, createConnection sessionOneOpen windowOne = Except.ok st2 ∧
      mapGet st2.connections windowOne = some sessionOneOpen.fresh ∧
      mapGet st2.connections windowOne ≠ some 0 :=
  ⟨by decide, by decide,
   create_overwrites_existing_session sessionOneOpen windowOne 0 (by decide) (by decide)⟩

/-- C4 counterexample: session 1's answer has already been applied (link no
longer negotiating: signaling state is `stable`, not `have-local-offer`);
delivering the answer again makes `setRemoteDescription` reject, but
`handleAnswer` catches it and merely logs — the call returns normally
(`Except.ok`, outcome `errorLogged`, state unchanged), so no
`NegotiationError` is surfaced to the caller as the claim requires. -/
theorem late_answer_error_logged_not_surfaced :
    lookupPC sessionOneAnswered windowOne = some pcAnswered ∧
    pcAnswered.signalingState ≠ SignalingState.haveLocalOffer ∧
    handleAnswer sessionOneAnswered windowOne answerA
      = Except.ok (sessionOneAnswered, AnswerOutcome.errorLogged) := by
  refine ⟨by decide, by decide, rfl⟩

/-- C4 amended: `handleAnswer` never throws.  For an absent session it
returns silently with the state unchanged (no log, no exception, no session
re-created); for a session whose link is not in the negotiating
(`have-local-offer`) state, the `setRemoteDescription` failure is caught
and logged inside `handleAnswer` — the call still returns `ok` with the
state unchanged and no error is surfaced to the caller. -/
theorem handleAnswer_swallows_errors :
    (∀ (st : ControllerState) (w : WindowId) (ans : Answer),
      lookupPC st w = none →
      handleAnswer st w ans = Except.ok (st, AnswerOutcome.absentNoop)) ∧
    (∀ (st : ControllerState) (w : WindowId) (ans : Answer) (pc : PeerConnection),
      lookupPC st w = some pc → pc.signalingState ≠ SignalingState.haveLocalOffer →
      handleAnswer st w ans = Except.ok (st, AnswerOutcome.errorLogged)) := by
  constructor
  · intro st w ans h
    simp [handleAnswer, h]
  · intro st w ans pc h1 h2
    simp [handleAnswer, h1, setRemoteDescription, h2]

/-- Witness for `handleAnswer_swallows_errors`: the empty controller for
the absent case, and the answered session for the non-negotiating case. -/
theorem handleAnswer_swallows_errors_witness :
    lookupPC initialControllerState windowOne = none ∧
    handleAnswer initialControllerState windowOne answerA
      = Except.ok (initialControllerState, AnswerOutcome.absentNoop) ∧
    lookupPC sessionOneAnswered windowOne = some pcAnswered ∧
    handleAnswer sessionOneAnswered windowOne answerA
      = Except.ok (sessionOneAnswered, AnswerOutcome.errorLogged) :=
  ⟨by decide,
   handleAnswer_swallows_errors.1 initialControllerState windowOne answerA (by decide),
   by decide,
   handleAnswer_swallows_errors.2 sessionOneAnswered windowOne answerA pcAnswered
     (by decide) (by decide)⟩

/-- C6 counterexample: session 1's audio channel opened while no capture
source existed, so its timer runs at the fallback `1000/60` ms; then the
microphone starts successfully (analyser and audio context present,
`updateMicrophoneStream()` called).  The session's interval is still
`1000/60` — the cadence is computed once at channel open and never
recomputed — although the claim requires it to become
`(2048 / 48000) * 1000` ms once the capture source is active, a different
number. -/
theorem cadence_not_recomputed_on_mic_start :
    sessionOneMicStarted.intervals = [(1, 0, 1000 / 60)] ∧
    sessionOneMicStarted.microphoneManager.analyser.isSome = true ∧
    sessionOneMicStarted.microphoneManager.audioContext = some { sampleRate := 48000 } ∧
    (1000 / 60 : ℚ) ≠ ((2048 : ℚ) / 48000) * 1000 := by
  refine ⟨rfl, rfl, rfl, by norm_num⟩

/-- C6 amended: the frame-timer interval is computed exactly once, when the
audio channel opens: the fixed fallback `1000/60` ms (60 Hz) if the
analyser or audio context is absent at that moment, else
`(fftSize / sampleRate) * 1000` ms; a successful `MicrophoneManager.start`
installs an analyser with `fftSize = 2048`; and neither a microphone start
nor `updateMicrophoneStream()` ever touches a running interval — the
cadence is not recomputed when a capture source appears later. -/
theorem cadence_rule :
    (∀ m : MicrophoneManager, m.analyser = none ∨ m.audioContext = none →
      startAudioSending m = 1000 / 60) ∧
    (∀ (m : MicrophoneManager) (a : Analyser) (ctx : AudioContext),
      m.analyser = some a → m.audioContext = some ctx →
      startAudioSending m = ((a.fftSize : ℚ) / ctx.sampleRate) * 1000) ∧
    (∀ (st : ControllerState) (pcId : Nat) (pc : PeerConnection),
      heapGet st.heap pcId = some pc →
      (audioChannelOnOpen st pcId).intervals
        = st.intervals ++ [(st.fresh, pcId, startAudioSending st.microphoneManager)]) ∧
    (∀ (st : ControllerState) (d : JsString) (strm : MediaStream),
      (micStartEvent st d strm).intervals = st.intervals) ∧
    (∀ st : ControllerState, (updateMicrophoneStream st).intervals = st.intervals) ∧
    (∀ (m : MicrophoneManager) (d : JsString) (strm : MediaStream),
      (MicrophoneManager.start m d strm).analyser
        = some { fftSize := 2048, smoothingTimeConstant := 3 / 10,
                 timeData := List.replicate 2048 128 }) := by
  refine ⟨?_, ?_, ?_, ?_, ?_, ?_⟩
  · intro m h
    rcases h with h | h
    · simp [startAudioSending, h]
    · cases hm : m.analyser <;> simp [startAudioSending, hm, h]
  · intro m a ctx h1 h2
    simp [startAudioSending, h1, h2]
  · intro st pcId pc h
    simp [audioChannelOnOpen, h]
  · intro st d strm
    rfl
  · intro st
    rfl
  · intro m d strm
    rfl

/-- Witness for `cadence_rule`: the fresh microphone manager has no
analyser (fallback rate `1000/60`); after the concrete mic start, the
cadence formula evaluates with `fftSize = 2048` and `sampleRate = 48000`;
and the concrete channel-open on session 1 registers exactly the computed
interval. -/
theorem cadence_rule_witness :
    startAudioSending MicrophoneManager.init = 1000 / 60 ∧
    startAudioSending sessionOneMicStarted.microphoneManager
      = (((2048 : Nat) : ℚ) / (48000 : ℚ)) * 1000 ∧
    (audioChannelOnOpen sessionOneOpen 0).intervals
      = sessionOneOpen.intervals
        ++ [(sessionOneOpen.fresh, 0, startAudioSending sessionOneOpen.microphoneManager)] :=
  ⟨cadence_rule.1 MicrophoneManager.init (Or.inl rfl),
   cadence_rule.2.1 sessionOneMicStarted.microphoneManager
     { fftSize := 2048, smoothingTimeConstant := 3 / 10,
       timeData := List.replicate 2048 128 }
     { sampleRate := 48000 } rfl rfl,
   cadence_rule.2.2.1 sessionOneOpen 0 pcAfterCreate (by decide)⟩

/-- C5: a remote candidate arriving at `handleIceCandidate` for a session
whose remote description is not yet set is deferred — re-scheduled via
`setTimeout` with the same arguments, never dropped — and the re-invoked
call applies it once the remote description is set; the popup receiver
queues early candidates in `pendingICECandidates` and `handleOffer` flushes
the whole queue (in order) once the remote description is set; and an
empty/null candidate (end-of-candidates marker) is a state-no-op on the
sender (`WebRTCController`) and on both receivers (`WebRTCReceiver`,
`SocketReceiver`). -/
theorem remote_candidate_deferral :
    (∀ (st : ControllerState) (w : WindowId) (pc : PeerConnection) (c : CandidateData),
      lookupPC st w = some pc → isEmptyCandidate (some c) = false →
      pc.remoteDescription = none →
      handleIceCandidate st w (some c)
        = ({ st with retryQueue := st.retryQueue ++ [(w, some c)] },
           IceOutcome.deferredRetry)) ∧
    (∀ (st : ControllerState) (w : WindowId) (pc : PeerConnection) (c : CandidateData)
        (a : Answer),
      lookupPC st w = some pc → isEmptyCandidate (some c) = false →
      pc.remoteDescription = some a →
      handleIceCandidate st w (some c)
        = (heapSetSt st { pc with appliedCandidates := pc.appliedCandidates ++ [c] },
           IceOutcome.applied)) ∧
    (∀ (st : ControllerState) (w : WindowId) (c : CandidateData)
        (rest : List (WindowId × Option CandidateData)) (pc : PeerConnection) (a : Answer),
      st.retryQueue = (w, some c) :: rest →
      lookupPC st w = some pc → isEmptyCandidate (some c) = false →
      pc.remoteDescription = some a →
      (retryTimeoutFire st).2 = some IceOutcome.applied) ∧
    (∀ (st : ControllerState) (w : WindowId) (c : Option CandidateData),
      isEmptyCandidate c = true → (handleIceCandidate st w c).1 = st) ∧
    (∀ (r : WebRTCReceiver) (pc : ReceiverPeerConnection) (c : CandidateData),
      r.peerConnection = some pc → isEmptyCandidate (some c) = false →
      pc.remoteDescription = none →
      WebRTCReceiver.handleIceCandidate r (some c)
        = ({ r with pendingICECandidates := r.pendingICECandidates ++ [c] },
           ReceiverIceOutcome.queued)) ∧
    (∀ (r : WebRTCReceiver) (pc : ReceiverPeerConnection) (offer : Offer),
      r.peerConnection = some pc →
      ∃ pc2, (WebRTCReceiver.handleOffer r offer).1.peerConnection = some pc2 ∧
        pc2.remoteDescription = some offer ∧
        pc2.appliedCandidates = pc.appliedCandidates ++ r.pendingICECandidates ∧
        (WebRTCReceiver.handleOffer r offer).1.pendingICECandidates = []) ∧
    (∀ (r : WebRTCReceiver) (c : Option CandidateData),
      isEmptyCandidate c = true → (WebRTCReceiver.handleIceCandidate r c).1 = r) ∧
    (∀ (r : SocketReceiver) (c : Option CandidateData),
      isEmptyCandidate c = true → (SocketReceiver.handleIceCandidate r c).1 = r) := by
  refine ⟨?_, ?_, ?_, ?_, ?_, ?_, ?_, ?_⟩
  · intro st w pc c h1 h2 h3
    simp [handleIceCandidate, h1, h2, h3]
  · intro st w pc c a h1 h2 h3
    simp [handleIceCandidate, h1, h2, h3]
  · intro st w c rest pc a hq h1 h2 h3
    have h1b : lookupPC { st with retryQueue := rest } w = some pc := by
      rw [lookupPC_set_retryQueue]
      exact h1
    simp [retryTimeoutFire, hq, handleIceCandidate, h1b, h2, h3]
  · intro st w c h
    unfold handleIceCandidate
    cases hl : lookupPC st w with
    | none => rfl
    | some pc => simp [h]
  · intro r pc c h1 h2 h3
    simp [WebRTCReceiver.handleIceCandidate, h1, h2, h3]
  · intro r pc offer h
    refine ⟨{ pc with
              remoteDescription := some offer
              appliedCandidates := pc.appliedCandidates ++ r.pendingICECandidates
              localDescription := some { sdp := [] } }, ?_, ?_, ?_, ?_⟩ <;>
      simp [WebRTCReceiver.handleOffer, h]
  · intro r c h
    unfold WebRTCReceiver.handleIceCandidate
    cases hl : r.peerConnection with
    | none => rfl
    | some pc => simp [h]
  · intro r c h
    unfold SocketReceiver.handleIceCandidate
    cases hl : r.peerConnection with
    | none => rfl
    | some pc => simp [h]

/-- Witness for `remote_candidate_deferral`: on the concrete session 1, an
early candidate is deferred; after the answer arrives, the pending retry
fires and applies it; empty candidates are no-ops on all three sides; and
the popup receiver queues and then flushes on its concrete offer. -/
theorem remote_candidate_deferral_witness :
    handleIceCandidate sessionOneOpen windowOne (some candX)
      = ({ sessionOneOpen with
            retryQueue := sessionOneOpen.retryQueue ++ [(windowOne, some candX)] },
         IceOutcome.deferredRetry) ∧
    (retryTimeoutFire deferredAnswered).2 = some IceOutcome.applied ∧
    (handleIceCandidate sessionOneOpen windowOne none).1 = sessionOneOpen ∧
    WebRTCReceiver.handleIceCandidate recvInit (some candX)
      = ({ recvInit with
            pendingICECandidates := recvInit.pendingICECandidates ++ [candX] },
         ReceiverIceOutcome.queued) ∧
    (∃ pc2, (WebRTCReceiver.handleOffer recvQueued offerA).1.peerConnection = some pc2 ∧
      pc2.remoteDescription = some offerA ∧
      pc2.appliedCandidates = recvPC0.appliedCandidates ++ recvQueued.pendingICECandidates ∧
      (WebRTCReceiver.handleOffer recvQueued offerA).1.pendingICECandidates = []) ∧
    (SocketReceiver.handleIceCandidate sockRecv none).1 = sockRecv :=
  ⟨remote_candidate_deferral.1 sessionOneOpen windowOne pcAfterCreate candX
     (by decide) (by decide) (by decide),
   remote_candidate_deferral.2.2.1 deferredAnswered windowOne candX [] pcAnswered answerA
     (by decide) (by decide) (by decide) (by decide),
   remote_candidate_deferral.2.2.2.1 sessionOneOpen windowOne none (by decide),
   remote_candidate_deferral.2.2.2.2.1 recvInit recvPC0 candX
     (by decide) (by decide) (by decide),
   remote_candidate_deferral.2.2.2.2.2.1 recvQueued recvPC0 offerA (by decide),
   remote_candidate_deferral.2.2.2.2.2.2.2 sockRecv none (by decide)⟩

/-- C8: `sendControlMessage` returns the boolean `false` — a value, not an
exception — and transmits nothing whenever the session is absent, the
control channel expando is unset, or the control channel's `readyState` is
not open; when the channel is open and the send succeeds it transmits
exactly `JSON.stringify(message)` and returns `true`. -/
theorem sendControl_boolean_contract :
    (∀ (st : ControllerState) (w : WindowId) (msg : JObj) (sendOk : Bool),
      lookupPC st w = none → sendControlMessage st w msg sendOk = (false, none)) ∧
    (∀ (st : ControllerState) (w : WindowId) (msg : JObj) (sendOk : Bool)
        (pc : PeerConnection),
      lookupPC st w = some pc → pc.controlChannel = false →
      sendControlMessage st w msg sendOk = (false, none)) ∧
    (∀ (st : ControllerState) (w : WindowId) (msg : JObj) (sendOk : Bool)
        (pc : PeerConnection),
      lookupPC st w = some pc → pc.controlChannelState ≠ RTCDataChannelState.opened →
      sendControlMessage st w msg sendOk = (false, none)) ∧
    (∀ (st : ControllerState) (w : WindowId) (msg : JObj) (pc : PeerConnection),
      lookupPC st w = some pc → pc.controlChannel = true →
      pc.controlChannelState = RTCDataChannelState.opened →
      sendControlMessage st w msg true = (true, some (stringify msg))) := by
  refine ⟨?_, ?_, ?_, ?_⟩
  · intro st w msg sendOk h
    simp [sendControlMessage, h]
  · intro st w msg sendOk pc h1 h2
    simp [sendControlMessage, h1, h2]
  · intro st w msg sendOk pc h1 h2
    by_cases hcc : pc.controlChannel = false
    · simp [sendControlMessage, h1, hcc]
    · simp [sendControlMessage, h1, hcc, h2]
  · intro st w msg pc h1 h2 h3
    simp [sendControlMessage, h1, h2, h3]

/-- Witness for `sendControl_boolean_contract`: absent session, session
with the control channel not yet registered, session whose control channel
left the open state, and the open-channel success case with the concrete
preset command. -/
theorem sendControl_boolean_contract_witness :
    sendControlMessage initialControllerState windowOne presetCmd true = (false, none) ∧
    sendControlMessage sessionOneOpen windowOne presetCmd true = (false, none) ∧
    sendControlMessage sessionCtlClosing windowOne presetCmd true = (false, none) ∧
    sendControlMessage sessionOneControlOpen windowOne presetCmd true
      = (true, some (stringify presetCmd)) :=
  ⟨sendControl_boolean_contract.1 initialControllerState windowOne presetCmd true (by decide),
   sendControl_boolean_contract.2.1 sessionOneOpen windowOne presetCmd true pcAfterCreate
     (by decide) (by decide),
   sendControl_boolean_contract.2.2.1 sessionCtlClosing windowOne presetCmd true pcCtlClosing
     (by decide) (by decide),
   sendControl_boolean_contract.2.2.2 sessionOneControlOpen windowOne presetCmd pcCtlOpen
     (by decide) (by decide) (by decide)⟩

/-- C9: signaling routing is decided purely by the session-id format.
`isBrowserClient` holds exactly when the id is a string containing the
separator character; locally discovered candidates
(`pc.onicecandidate`) and the freshly created offer are each dispatched to
the relay adapter exactly under that condition and to the IPC adapter
otherwise — a single entry is appended per event, so a message never
reaches the other adapter. -/
theorem routing_by_session_id_format :
    (∀ w : WindowId,
      isBrowserClient w = true ↔ ∃ s : JsString, w = WindowId.str s ∧ '-' ∈ s) ∧
    (∀ (st : ControllerState) (w : WindowId) (c : CandidateData),
      onIceCandidateLocal st w (some c)
        = { st with sentCandidates := st.sentCandidates
            ++ [((if isBrowserClient w then Adapter.relay else Adapter.ipcLocal), w, c)] }) ∧
    (∀ (st : ControllerState) (w : WindowId),
      ∃ st2, createConnection st w = Except.ok st2 ∧
        st2.sentOffers = st.sentOffers
          ++ [((if isBrowserClient w then Adapter.relay else Adapter.ipcLocal), w, st.fresh)]) ∧
    Adapter.relay ≠ Adapter.ipcLocal := by
  refine ⟨?_, ?_, ?_, by decide⟩
  · intro w
    cases w with
    | num n => simp [isBrowserClient]
    | str s =>
        constructor
        · intro h
          refine ⟨s, rfl, ?_⟩
          have := h
          simp only [isBrowserClient, List.contains] at this
          exact List.elem_iff.mp this
        · rintro ⟨s2, hs, hm⟩
          cases hs
          simp only [isBrowserClient, List.contains]
          exact List.elem_iff.mpr hm
  · intro st w c
    cases h : isBrowserClient w <;> simp [onIceCandidateLocal, h]
  · intro st w
    exact ⟨_, rfl, rfl⟩

end ButterVisualizer
